import Mathlib

/-!
Verification development for the subscription lifecycle core of a
streaming-platform backend.  The definitions below are a shallow embedding
of the TypeScript source: the Prisma-backed relational store is a record of
lists of rows, each controller/service method becomes a pure function from
the store (plus the request data and an explicit clock value) to a response
paired with the updated store.  Timestamps are modelled as integers
(milliseconds), `Date` comparison as integer comparison.  A Prisma
`update`/`updateMany` with a `where` clause is modelled as a map over the
rows that rewrites every matching row; `findFirst` is `List.find?`, and
`findFirst` with `orderBy: createdAt desc` picks the row with the greatest
`createdAt` among the matches.
-/

namespace StreamingApp

inductive Tier
  | FREE
  | STANDARD
  | PREMIUM
deriving DecidableEq, Repr

inductive SubStatus
  | ACTIVE
  | INACTIVE
  | CANCELLED
  | EXPIRED
  | PAST_DUE
deriving DecidableEq, Repr

inductive PayPlatform
  | STRIPE
  | GOOGLE_PLAY
  | APPLE_STORE
deriving DecidableEq, Repr

/-- A parsed Google Play receipt payload (`JSON.parse(receiptData)` in
`ValidationService.validateGooglePlayReceipt`); the required identifier
fields are optional because the payload may omit them. -/
structure GooglePlayReceipt where
  purchaseToken : Option String
  productId : Option String
  orderId : Option String
  purchaseTime : Int
deriving DecidableEq, Repr

/-- A row of the `Subscription` table. -/
structure Subscription where
  id : String
  userId : String
  planId : String
  status : SubStatus
  tier : Tier
  platform : PayPlatform
  externalSubscriptionId : String
  currentPeriodStart : Int
  currentPeriodEnd : Int
  cancelAtPeriodEnd : Bool
  createdAt : Int
  receipt : Option GooglePlayReceipt
deriving DecidableEq, Repr

/-- A row of the `User` table (the fields the subscription core touches). -/
structure User where
  id : String
  subscriptionTier : Tier
deriving DecidableEq, Repr

inductive OrderStatus
  | PENDING
  | CONFIRMED
deriving DecidableEq, Repr

/-- A row of the `Order` table (only what the payment-intent webhook touches). -/
structure Order where
  id : String
  status : OrderStatus
  paymentIntentId : Option String
deriving DecidableEq, Repr

/-- The relational store.  `analytics` records the `event` names of the
`prisma.analytics.create` calls. -/
structure DB where
  users : List User
  subscriptions : List Subscription
  orders : List Order
  analytics : List String
deriving DecidableEq, Repr

/-- `status: { in: ['ACTIVE', 'PAST_DUE'] }`. -/
def isCurrentStatus (s : SubStatus) : Bool :=
  s == .ACTIVE || s == .PAST_DUE

/-- `prisma.user.findUnique({ where: { id } })`. -/
def findUser (db : DB) (uid : String) : Option User :=
  db.users.find? (fun u => u.id == uid)

/-- `prisma.user.update({ where: { id: uid }, data: { subscriptionTier } })`. -/
def updateUserTier (db : DB) (uid : String) (t : Tier) : DB :=
  { db with users :=
      db.users.map (fun u => if u.id == uid then { u with subscriptionTier := t } else u) }

/-- `prisma.subscription.update({ where: { id: sid }, data: { status } })`. -/
def updateSubStatus (db : DB) (sid : String) (st : SubStatus) : DB :=
  { db with subscriptions :=
      db.subscriptions.map (fun s => if s.id == sid then { s with status := st } else s) }

/-- `findFirst({ where: { userId, status: in [ACTIVE, PAST_DUE] }, orderBy: { createdAt: 'desc' } })`:
the matching row with the greatest `createdAt` (first such row on ties). -/
def latestActiveSub (db : DB) (uid : String) : Option Subscription :=
  (db.subscriptions.filter (fun s => s.userId == uid && isCurrentStatus s.status)).foldl
    (fun best s =>
      match best with
      | none => some s
      | some b => if s.createdAt > b.createdAt then some s else some b)
    none

/-- `findFirst({ where: { userId, status: in [ACTIVE, PAST_DUE] } })` (no ordering):
the first matching row. -/
def firstActiveSub (db : DB) (uid : String) : Option Subscription :=
  db.subscriptions.find? (fun s => s.userId == uid && isCurrentStatus s.status)

/-- `planId.includes('premium')` (does `pat` occur inside `s`). -/
def strContains (s pat : String) : Bool :=
  (s.splitOn pat).length ≥ 2

/-! ## Access Policy Evaluator (`SubscriptionController.checkAccess`) -/

structure AccessFeatures where
  unlimitedStreaming : Bool
  offlineDownloads : Bool
  premiumContent : Bool
  adFree : Bool
  highQualityStreaming : Bool
deriving DecidableEq, Repr

structure AccessLevel where
  tier : Tier
  hasActiveSubscription : Bool
  canAccessPremiumContent : Bool
  canDownloadContent : Bool
  maxDownloads : Int
  features : AccessFeatures
deriving DecidableEq, Repr

/-- The `accessLevel` object first built by `checkAccess` from the cached
`user.subscriptionTier`. -/
def baseAccessLevel (t : Tier) (hasActive : Bool) : AccessLevel :=
  { tier := t
    hasActiveSubscription := hasActive
    canAccessPremiumContent := t != .FREE
    canDownloadContent := t != .FREE
    maxDownloads := if t == .PREMIUM then -1 else if t == .STANDARD then 10 else 0
    features :=
      { unlimitedStreaming := t != .FREE
        offlineDownloads := t != .FREE
        premiumContent := t == .PREMIUM
        adFree := t != .FREE
        highQualityStreaming := t == .PREMIUM } }

/-- The literal replacement object `checkAccess` installs when the current
subscription's period has ended. -/
def freeAccessLevel : AccessLevel :=
  { tier := .FREE
    hasActiveSubscription := false
    canAccessPremiumContent := false
    canDownloadContent := false
    maxDownloads := 0
    features :=
      { unlimitedStreaming := false
        offlineDownloads := false
        premiumContent := false
        adFree := false
        highQualityStreaming := false } }

inductive CheckAccessResp
  | userNotFound
  | ok (access : AccessLevel)
deriving DecidableEq, Repr

/-- `SubscriptionController.checkAccess` (GET /subscriptions/check-access). -/
def checkAccess (now : Int) (db : DB) (uid : String) : CheckAccessResp × DB :=
  match findUser db uid with
  | none => (.userNotFound, db)
  | some u =>
    let cur := latestActiveSub db uid
    let base := baseAccessLevel u.subscriptionTier cur.isSome
    match cur with
    | none => (.ok base, db)
    | some s =>
      if s.currentPeriodEnd < now then
        let db' := if u.subscriptionTier != .FREE then updateUserTier db uid .FREE else db
        (.ok freeAccessLevel, db')
      else
        (.ok base, db)

inductive GetSubResp
  | noneFound
  | ok (sub : Subscription) (isExpired : Bool)
deriving DecidableEq, Repr

/-- `SubscriptionController.getCurrentSubscription` (GET /subscriptions).
Returns the latest ACTIVE/PAST_DUE row; when that row's period has ended and
its status is still ACTIVE, it is written to EXPIRED and the user's cached
tier to FREE before responding.  The response carries the row as read. -/
def getCurrentSubscription (now : Int) (db : DB) (uid : String) : GetSubResp × DB :=
  match latestActiveSub db uid with
  | none => (.noneFound, db)
  | some s =>
    let isExp := decide (s.currentPeriodEnd < now)
    let db' :=
      if isExp && s.status == .ACTIVE then
        updateUserTier (updateSubStatus db s.id .EXPIRED) uid .FREE
      else db
    (.ok s isExp, db')

/-! ## Subscription creation (`SubscriptionController.createSubscription`) -/

/-- The fields of the gateway's subscription object that the controller reads. -/
structure StripeSubscription where
  id : String
  current_period_start : Int
  current_period_end : Int
  clientSecret : Option String
deriving DecidableEq, Repr

structure CreateSubOut where
  status : Nat
  message : String
  db : DB
  gatewayCalled : Bool
deriving DecidableEq, Repr

/-- `SubscriptionController.createSubscription` (POST /subscriptions/create).
The payment-gateway round trip is an oracle argument `gateway` (its error
case models a thrown SDK failure, surfaced by the error middleware as 500);
`freshId` is the id Prisma mints for the new row; `gatewayCalled` records
whether `paymentService.createSubscription` was reached. -/
def createSubscription (db : DB) (uid planId freshId : String) (now : Int)
    (gateway : Except String StripeSubscription) : CreateSubOut :=
  match firstActiveSub db uid with
  | some _ =>
    { status := 400, message := "User already has an active subscription"
      db := db, gatewayCalled := false }
  | none =>
    match findUser db uid with
    | none => { status := 404, message := "User not found", db := db, gatewayCalled := false }
    | some _ =>
      match gateway with
      | .error _ =>
        { status := 500, message := "Internal server error", db := db, gatewayCalled := true }
      | .ok st =>
        let tier : Tier := if strContains planId "premium" then .PREMIUM else .STANDARD
        let sub : Subscription :=
          { id := freshId, userId := uid, planId := planId, status := .ACTIVE, tier := tier
            platform := .STRIPE, externalSubscriptionId := st.id
            currentPeriodStart := st.current_period_start
            currentPeriodEnd := st.current_period_end
            cancelAtPeriodEnd := false, createdAt := now, receipt := none }
        let db1 := { db with subscriptions := db.subscriptions ++ [sub] }
        let db2 := updateUserTier db1 uid tier
        let db3 := { db2 with analytics := db2.analytics ++ ["subscription_created"] }
        { status := 201, message := "Subscription created successfully"
          db := db3, gatewayCalled := true }

/-! ## Webhook Reconciler (`PaymentService`) -/

/-- The fields of a `Stripe.Subscription` webhook payload that the handlers
read.  `metaUserId` is `subscription.metadata?.userId`. -/
structure StripeSubPayload where
  id : String
  providerStatus : String
  current_period_start : Int
  current_period_end : Int
  cancel_at_period_end : Bool
  metaUserId : Option String
deriving DecidableEq, Repr

structure PaymentIntentPayload where
  id : String
  metaUserId : Option String
  metaOrderId : Option String
deriving DecidableEq, Repr

inductive StripeEvent
  | subscriptionCreated (p : StripeSubPayload)
  | subscriptionUpdated (p : StripeSubPayload)
  | subscriptionDeleted (p : StripeSubPayload)
  | invoicePaymentSucceeded
  | invoicePaymentFailed
  | paymentIntentSucceeded (p : PaymentIntentPayload)
  | unhandled
deriving DecidableEq, Repr

/-- The `switch (subscription.status)` in `handleSubscriptionUpdated`. -/
def mapProviderStatus (s : String) : SubStatus :=
  if s == "active" then .ACTIVE
  else if s == "canceled" then .CANCELLED
  else if s == "past_due" then .PAST_DUE
  else .INACTIVE

/-- `PaymentService.handleSubscriptionUpdated`. -/
def handleSubscriptionUpdated (db : DB) (p : StripeSubPayload) : DB :=
  match p.metaUserId with
  | none => db
  | some uid =>
    match db.subscriptions.find? (fun s => s.externalSubscriptionId == p.id) with
    | none => db
    | some dbSub =>
      let st := mapProviderStatus p.providerStatus
      let db1 := { db with subscriptions :=
        db.subscriptions.map (fun s =>
          if s.id == dbSub.id then
            { s with status := st
                     currentPeriodStart := p.current_period_start
                     currentPeriodEnd := p.current_period_end
                     cancelAtPeriodEnd := p.cancel_at_period_end }
          else s) }
      if st == .ACTIVE then updateUserTier db1 uid dbSub.tier
      else if st == .CANCELLED || st == .EXPIRED then updateUserTier db1 uid .FREE
      else db1

/-- `PaymentService.handleSubscriptionDeleted`. -/
def handleSubscriptionDeleted (db : DB) (p : StripeSubPayload) : DB :=
  match p.metaUserId with
  | none => db
  | some uid =>
    let db1 := { db with subscriptions :=
      db.subscriptions.map (fun s =>
        if s.externalSubscriptionId == p.id then { s with status := SubStatus.CANCELLED }
        else s) }
    updateUserTier db1 uid .FREE

/-- `PaymentService.handlePaymentIntentSucceeded`. -/
def handlePaymentIntentSucceeded (db : DB) (p : PaymentIntentPayload) : DB :=
  match p.metaOrderId with
  | none => db
  | some oid =>
    { db with orders :=
        db.orders.map (fun o =>
          if o.id == oid then { o with status := .CONFIRMED, paymentIntentId := some p.id }
          else o) }

/-- `PaymentService.processWebhookEvent`. -/
def processWebhookEvent (db : DB) (ev : StripeEvent) : DB :=
  match ev with
  | .subscriptionCreated _ => db
  | .subscriptionUpdated p => handleSubscriptionUpdated db p
  | .subscriptionDeleted p => handleSubscriptionDeleted db p
  | .invoicePaymentSucceeded => db
  | .invoicePaymentFailed => db
  | .paymentIntentSucceeded p => handlePaymentIntentSucceeded db p
  | .unhandled => db

structure WebhookOut where
  status : Nat
  db : DB
  handlerRan : Bool
deriving DecidableEq, Repr

/-- `WebhookController.handleStripeWebhook`: reject when the signature header
is absent; otherwise `paymentService.handleWebhook` (the SDK's
`constructEvent`, modelled by the oracle `verified`) either throws — caught
and answered 400 with no state touched — or yields the event, which is then
processed.  `handlerRan` records whether `processWebhookEvent` was reached. -/
def handleStripeWebhook (db : DB) (sig : Option String)
    (verified : Except String StripeEvent) : WebhookOut :=
  match sig with
  | none => { status := 400, db := db, handlerRan := false }
  | some _ =>
    match verified with
    | .error _ => { status := 400, db := db, handlerRan := false }
    | .ok ev => { status := 200, db := processWebhookEvent db ev, handlerRan := true }

/-! ## Receipt Validator (`ValidationService`) and the validate-receipt endpoint -/

structure ReceiptValidationResult where
  isValid : Bool
  productId : Option String
  transactionId : Option String
  purchaseDate : Option Int
  expiresAt : Option Int
  receiptData : Option GooglePlayReceipt
  error : Option String
deriving DecidableEq, Repr

def thirtyDaysMs : Int := 30 * 24 * 60 * 60 * 1000

/-- `ValidationService.validateGooglePlayReceipt`.  The `payload` argument is
the outcome of `JSON.parse` on the receipt string (`none` models a parse
failure, which the catch block turns into an invalid result). -/
def validateGooglePlayReceipt (now : Int) (payload : Option GooglePlayReceipt) :
    ReceiptValidationResult :=
  match payload with
  | none =>
    { isValid := false, productId := none, transactionId := none, purchaseDate := none
      expiresAt := none, receiptData := none, error := some "Failed to validate receipt" }
  | some r =>
    if r.purchaseToken.isNone || r.productId.isNone then
      { isValid := false, productId := none, transactionId := none, purchaseDate := none
        expiresAt := none, receiptData := none, error := some "Invalid receipt format" }
    else
      { isValid := true, productId := r.productId, transactionId := r.orderId
        purchaseDate := some r.purchaseTime, expiresAt := some (now + thirtyDaysMs)
        receiptData := some r, error := none }

/-- `SubscriptionController.validateReceipt`, GOOGLE_PLAY branch
(POST /subscriptions/validate-receipt).  Returns the HTTP status and the
updated store; `freshId` is the id Prisma would mint on the upsert's create
branch. -/
def validateReceiptGoogle (now : Int) (db : DB) (uid freshId : String)
    (payload : Option GooglePlayReceipt) : Nat × DB :=
  let vr := validateGooglePlayReceipt now payload
  if !vr.isValid then (400, db)
  else
    let tier : Tier := if strContains (vr.productId.getD "") "premium" then .PREMIUM else .STANDARD
    let extId := vr.transactionId.getD ("GOOGLE_PLAY_" ++ uid ++ "_" ++ toString now)
    let periodEnd := vr.expiresAt.getD (now + thirtyDaysMs)
    let db1 :=
      match db.subscriptions.find? (fun s => s.externalSubscriptionId == extId) with
      | some existing =>
        { db with subscriptions :=
            db.subscriptions.map (fun s =>
              if s.id == existing.id then
                { s with status := .ACTIVE, currentPeriodEnd := periodEnd
                         receipt := vr.receiptData }
              else s) }
      | none =>
        { db with subscriptions := db.subscriptions ++
            [{ id := freshId, userId := uid
               planId := vr.productId.getD "mobile_subscription"
               status := .ACTIVE, tier := tier, platform := .GOOGLE_PLAY
               externalSubscriptionId := extId
               currentPeriodStart := vr.purchaseDate.getD now
               currentPeriodEnd := periodEnd
               cancelAtPeriodEnd := false, createdAt := now
               receipt := vr.receiptData }] }
    let db2 := updateUserTier db1 uid tier
    let db3 := { db2 with analytics := db2.analytics ++ ["mobile_subscription_validated"] }
    (200, db3)

/-! ## Plan Catalog (`SubscriptionService.getAvailablePlans`) -/

structure SubscriptionPlan where
  id : String
  name : String
  description : String
  price : ℚ
  currency : String
  interval : String
  tier : Tier
  features : List String
  stripePriceId : String
deriving DecidableEq, Repr

/-- `SubscriptionService.getAvailablePlans`.  The two `stripePriceId` values
come from the environment and are passed in as parameters. -/
def getAvailablePlans (stdPriceId premPriceId : String) : List SubscriptionPlan :=
  [ { id := "standard_monthly"
      name := "Standard Monthly"
      description := "Access to all content with basic features"
      price := 9.99
      currency := "USD"
      interval := "month"
      tier := .STANDARD
      features :=
        [ "Unlimited streaming", "Offline downloads (up to 10)", "Ad-free experience"
          , "HD quality streaming" ]
      stripePriceId := stdPriceId }
  , { id := "premium_monthly"
      name := "Premium Monthly"
      description := "All features with premium content access"
      price := 19.99
      currency := "USD"
      interval := "month"
      tier := .PREMIUM
      features :=
        [ "Everything in Standard", "Unlimited downloads", "Premium exclusive content"
          , "4K Ultra HD streaming", "Early access to new content"
          , "Priority customer support" ]
      stripePriceId := premPriceId } ]

/-! ## Expiry sweep (`SubscriptionService.syncSubscriptionStatus`) -/

/-- The sweep's `where` clause: ACTIVE/PAST_DUE with `currentPeriodEnd` in the past. -/
def isDue (now : Int) (s : Subscription) : Bool :=
  isCurrentStatus s.status && s.currentPeriodEnd < now

/-- `SubscriptionService.expireSubscription`: write the row to EXPIRED, then
the owning user's cached tier to FREE. -/
def expireSubscription (db : DB) (sid ownerId : String) : DB :=
  updateUserTier (updateSubStatus db sid .EXPIRED) ownerId .FREE

/-- `SubscriptionService.syncSubscriptionStatus`: expire every due row
sequentially and return how many rows were found due. -/
def syncSubscriptionStatus (now : Int) (db : DB) : Nat × DB :=
  let due := db.subscriptions.filter (isDue now)
  (due.length, due.foldl (fun d s => expireSubscription d s.id s.userId) db)

end StreamingApp

namespace StreamingApp

/-! ## Helper lemmas about the store primitives -/

lemma find?_tierMap (users : List User) (uid : String) (t : Tier) :
    (users.map (fun u => if u.id == uid then { u with subscriptionTier := t } else u)).find?
        (fun u => u.id == uid)
      = (users.find? (fun u => u.id == uid)).map
          (fun u => { u with subscriptionTier := t }) := by
  rw [List.find?_map]
  have hcomp : ((fun u : User => u.id == uid) ∘
      fun u => if u.id == uid then { u with subscriptionTier := t } else u)
      = fun u : User => u.id == uid := by
    funext u
    by_cases h : u.id = uid <;> simp [h]
  rw [hcomp]
  cases hfind : users.find? (fun u => u.id == uid) with
  | none => rfl
  | some a =>
    have ha := List.find?_some hfind
    simp at ha
    simp [ha]

lemma findUser_updateUserTier (db : DB) (uid : String) (t : Tier) :
    findUser (updateUserTier db uid t) uid
      = (findUser db uid).map (fun u => { u with subscriptionTier := t }) := by
  cases db
  simpa [findUser, updateUserTier] using find?_tierMap _ uid t

lemma updateUserTier_subscriptions (db : DB) (uid : String) (t : Tier) :
    (updateUserTier db uid t).subscriptions = db.subscriptions := rfl

lemma latestActiveSub_updateUserTier (db : DB) (uid uid' : String) (t : Tier) :
    latestActiveSub (updateUserTier db uid t) uid' = latestActiveSub db uid' := rfl

/-! ## C9: the plan catalog -/

/-- C9: the plan catalog is a pure constant (hence deterministic and
side-effect-free) returning exactly two plans: `standard_monthly` at tier
STANDARD, price 9.99, and `premium_monthly` at tier PREMIUM, price 19.99,
for any environment-supplied gateway price ids. -/
theorem getAvailablePlans_catalog (stdPriceId premPriceId : String) :
    (getAvailablePlans stdPriceId premPriceId).length = 2 ∧
    ∃ p1 p2, getAvailablePlans stdPriceId premPriceId = [p1, p2] ∧
      p1.id = "standard_monthly" ∧ p1.tier = Tier.STANDARD ∧ p1.price = 999 / 100 ∧
      p2.id = "premium_monthly" ∧ p2.tier = Tier.PREMIUM ∧ p2.price = 1999 / 100 := by
  refine ⟨rfl, _, _, rfl, rfl, rfl, ?_, rfl, rfl, ?_⟩
  · show (9.99 : ℚ) = 999 / 100
    norm_num
  · show (19.99 : ℚ) = 1999 / 100
    norm_num

/-! ## C2: creating a second subscription is a conflict -/

/-- C2: when the user already holds an ACTIVE or PAST_DUE subscription row,
`createSubscription` answers 400 with the conflict message, leaves the whole
store (existing rows, cached tier, analytics) untouched, and never reaches
the payment gateway, for any gateway outcome and request data. -/
theorem createSubscription_conflict (db : DB) (uid planId freshId : String) (now : Int)
    (gateway : Except String StripeSubscription)
    (h : ∃ s ∈ db.subscriptions,
      s.userId = uid ∧ (s.status = SubStatus.ACTIVE ∨ s.status = SubStatus.PAST_DUE)) :
    (createSubscription db uid planId freshId now gateway).status = 400 ∧
    (createSubscription db uid planId freshId now gateway).message
        = "User already has an active subscription" ∧
    (createSubscription db uid planId freshId now gateway).db = db ∧
    (createSubscription db uid planId freshId now gateway).gatewayCalled = false := by
  have hsome : (firstActiveSub db uid).isSome = true := by
    simp only [firstActiveSub]
    refine List.find?_isSome.mpr ?_
    rcases h with ⟨s, hmem, hu, hst⟩
    refine ⟨s, hmem, ?_⟩
    rcases hst with h1 | h1 <;> simp [isCurrentStatus, hu, h1]
  rcases hopt : firstActiveSub db uid with _ | s
  · rw [hopt] at hsome
    simp at hsome
  · simp [createSubscription, hopt]

def c2sub : Subscription :=
  { id := "s1", userId := "u1", planId := "standard_monthly", status := .ACTIVE
    tier := .STANDARD, platform := .STRIPE, externalSubscriptionId := "ext1"
    currentPeriodStart := 0, currentPeriodEnd := 1000, cancelAtPeriodEnd := false
    createdAt := 0, receipt := none }

def c2db : DB :=
  { users := [{ id := "u1", subscriptionTier := .STANDARD }]
    subscriptions := [c2sub], orders := [], analytics := [] }

def c2gateway : Except String StripeSubscription :=
  .ok { id := "ext2", current_period_start := 5, current_period_end := 105, clientSecret := none }

theorem createSubscription_conflict_witness :
    (∃ s ∈ c2db.subscriptions,
      s.userId = "u1" ∧ (s.status = SubStatus.ACTIVE ∨ s.status = SubStatus.PAST_DUE)) ∧
    (createSubscription c2db "u1" "premium_monthly" "s2" 5 c2gateway).status = 400 ∧
    (createSubscription c2db "u1" "premium_monthly" "s2" 5 c2gateway).db = c2db ∧
    (createSubscription c2db "u1" "premium_monthly" "s2" 5 c2gateway).gatewayCalled = false := by
  have hyp : ∃ s ∈ c2db.subscriptions,
      s.userId = "u1" ∧ (s.status = SubStatus.ACTIVE ∨ s.status = SubStatus.PAST_DUE) :=
    ⟨c2sub, by simp [c2db], rfl, Or.inl rfl⟩
  have H := createSubscription_conflict c2db "u1" "premium_monthly" "s2" 5 c2gateway hyp
  exact ⟨hyp, H.1, H.2.2.1, H.2.2.2⟩

/-! ## C10: webhook payloads without a userId in metadata -/

/-- C10: a subscription-updated or subscription-deleted webhook payload whose
metadata carries no userId causes no store write at all — the handlers
return the store unchanged, even when a row matches the payload's external
subscription id. -/
theorem webhook_missing_userid_no_write (db : DB) (p : StripeSubPayload)
    (h : p.metaUserId = none) :
    handleSubscriptionUpdated db p = db ∧ handleSubscriptionDeleted db p = db := by
  constructor
  · simp [handleSubscriptionUpdated, h]
  · simp [handleSubscriptionDeleted, h]

def c10sub : Subscription :=
  { id := "s1", userId := "u1", planId := "premium_monthly", status := .ACTIVE
    tier := .PREMIUM, platform := .STRIPE, externalSubscriptionId := "ext1"
    currentPeriodStart := 0, currentPeriodEnd := 1000, cancelAtPeriodEnd := false
    createdAt := 0, receipt := none }

def c10db : DB :=
  { users := [{ id := "u1", subscriptionTier := .PREMIUM }]
    subscriptions := [c10sub], orders := [], analytics := [] }

def c10payload : StripeSubPayload :=
  { id := "ext1", providerStatus := "canceled", current_period_start := 10
    current_period_end := 20, cancel_at_period_end := true, metaUserId := none }

theorem webhook_missing_userid_no_write_witness :
    c10payload.metaUserId = none ∧
    (c10db.subscriptions.find?
      (fun s => s.externalSubscriptionId == c10payload.id)).isSome = true ∧
    handleSubscriptionUpdated c10db c10payload = c10db ∧
    handleSubscriptionDeleted c10db c10payload = c10db :=
  ⟨rfl, by decide,
    (webhook_missing_userid_no_write c10db c10payload rfl).1,
    (webhook_missing_userid_no_write c10db c10payload rfl).2⟩

end StreamingApp

namespace StreamingApp

/-! ## C6: webhook signature gate -/

/-- C6: a webhook request with a missing signature header, or whose
signature fails the gateway SDK's verification (the `verified` oracle is an
error), is answered 400 with the store untouched and with no event handler
ever reached — events are processed only after verification succeeds. -/
theorem webhook_bad_signature (db : DB) (sig : Option String)
    (verified : Except String StripeEvent)
    (h : sig = none ∨ ∃ e, verified = Except.error e) :
    (handleStripeWebhook db sig verified).status = 400 ∧
    (handleStripeWebhook db sig verified).db = db ∧
    (handleStripeWebhook db sig verified).handlerRan = false := by
  rcases h with h | ⟨e, h⟩
  · simp [handleStripeWebhook, h]
  · cases sig with
    | none => simp [handleStripeWebhook]
    | some s => simp [handleStripeWebhook, h]

def c6db : DB :=
  { users := [{ id := "u1", subscriptionTier := .PREMIUM }]
    subscriptions := [], orders := [], analytics := [] }

theorem webhook_bad_signature_witness :
    ((some "t" : Option String) = none ∨
      ∃ e, (Except.error "bad" : Except String StripeEvent) = Except.error e) ∧
    (handleStripeWebhook c6db (some "t") (Except.error "bad")).status = 400 ∧
    (handleStripeWebhook c6db (some "t") (Except.error "bad")).db = c6db ∧
    (handleStripeWebhook c6db (some "t") (Except.error "bad")).handlerRan = false := by
  have hyp : (some "t" : Option String) = none ∨
      ∃ e, (Except.error "bad" : Except String StripeEvent) = Except.error e :=
    Or.inr ⟨"bad", rfl⟩
  exact ⟨hyp, webhook_bad_signature c6db (some "t") (Except.error "bad") hyp⟩

/-! ## C7: invalid Google Play receipts -/

/-- C7: when the Google Play receipt payload fails to parse, or parses but
lacks the purchase token or the product id, validation returns a value with
`isValid = false` and a non-empty error (never a thrown fault), the
validate-receipt endpoint answers 400, and the store — subscriptions, user
tiers, analytics — is left exactly as it was. -/
theorem googleReceipt_invalid (now : Int) (db : DB) (uid freshId : String)
    (payload : Option GooglePlayReceipt)
    (h : payload = none ∨
      ∃ r, payload = some r ∧ (r.purchaseToken = none ∨ r.productId = none)) :
    (validateGooglePlayReceipt now payload).isValid = false ∧
    (∃ msg, (validateGooglePlayReceipt now payload).error = some msg ∧ msg ≠ "") ∧
    validateReceiptGoogle now db uid freshId payload = (400, db) := by
  rcases h with h | ⟨r, hp, hr⟩
  · subst h
    exact ⟨rfl, ⟨"Failed to validate receipt", rfl, by decide⟩, rfl⟩
  · subst hp
    have hinv : (r.purchaseToken.isNone || r.productId.isNone) = true := by
      rcases hr with h1 | h1 <;> simp [h1]
    have hv : validateGooglePlayReceipt now (some r)
        = { isValid := false, productId := none, transactionId := none, purchaseDate := none
            expiresAt := none, receiptData := none
            error := some "Invalid receipt format" } := by
      simp [validateGooglePlayReceipt, hinv]
    refine ⟨by rw [hv], ⟨"Invalid receipt format", by rw [hv], by decide⟩, ?_⟩
    simp [validateReceiptGoogle, hv]

def c7payload : GooglePlayReceipt :=
  { purchaseToken := none, productId := some "premium_sub", orderId := some "o1"
    purchaseTime := 0 }

def c7db : DB :=
  { users := [{ id := "u1", subscriptionTier := .FREE }]
    subscriptions := [], orders := [], analytics := [] }

theorem googleReceipt_invalid_witness :
    ((some c7payload : Option GooglePlayReceipt) = none ∨
      ∃ r, (some c7payload : Option GooglePlayReceipt) = some r ∧
        (r.purchaseToken = none ∨ r.productId = none)) ∧
    (validateGooglePlayReceipt 3 (some c7payload)).isValid = false ∧
    validateReceiptGoogle 3 c7db "u1" "s9" (some c7payload) = (400, c7db) := by
  have hyp : (some c7payload : Option GooglePlayReceipt) = none ∨
      ∃ r, (some c7payload : Option GooglePlayReceipt) = some r ∧
        (r.purchaseToken = none ∨ r.productId = none) :=
    Or.inr ⟨c7payload, rfl, Or.inl rfl⟩
  have H := googleReceipt_invalid 3 c7db "u1" "s9" (some c7payload) hyp
  exact ⟨hyp, H.1, H.2.2⟩

/-! ## C3: access check for users with no subscription record -/

def c3db : DB :=
  { users := [{ id := "u1", subscriptionTier := .PREMIUM }]
    subscriptions := [], orders := [], analytics := [] }

/-- C3 counterexample: a user with no subscription record at all but a stale
cached tier of PREMIUM gets PREMIUM access from the access check — tier
PREMIUM, maxDownloads -1, premium-content flag true — not the claimed
FREE / 0 / all-false. -/
theorem checkAccess_no_record_counterexample :
    latestActiveSub c3db "u1" = none ∧
    (checkAccess 0 c3db "u1").1 = CheckAccessResp.ok (baseAccessLevel Tier.PREMIUM false) ∧
    (baseAccessLevel Tier.PREMIUM false).tier = Tier.PREMIUM ∧
    (baseAccessLevel Tier.PREMIUM false).maxDownloads = -1 ∧
    (baseAccessLevel Tier.PREMIUM false).canAccessPremiumContent = true := by
  decide

/-- C3 amended: for a user with no ACTIVE/PAST_DUE subscription record, the
access check answers with the access level derived from the cached
`User.subscriptionTier` (not forced to FREE), with no state change; the
answer is FREE-equivalent (tier FREE, maxDownloads 0, all flags false)
exactly when the cached tier is FREE. -/
theorem checkAccess_no_record (now : Int) (db : DB) (uid : String) (u : User)
    (hu : findUser db uid = some u) (hs : latestActiveSub db uid = none) :
    checkAccess now db uid = (.ok (baseAccessLevel u.subscriptionTier false), db) ∧
    (u.subscriptionTier = .FREE → baseAccessLevel u.subscriptionTier false = freeAccessLevel) := by
  constructor
  · simp [checkAccess, hu, hs]
  · intro hf
    rw [hf]
    decide

def c3wdb : DB :=
  { users := [{ id := "u5", subscriptionTier := .FREE }]
    subscriptions := [], orders := [], analytics := [] }

theorem checkAccess_no_record_witness :
    findUser c3wdb "u5" = some { id := "u5", subscriptionTier := Tier.FREE } ∧
    latestActiveSub c3wdb "u5" = none ∧
    checkAccess 7 c3wdb "u5" = (.ok (baseAccessLevel Tier.FREE false), c3wdb) :=
  ⟨rfl, rfl,
    (checkAccess_no_record 7 c3wdb "u5" { id := "u5", subscriptionTier := Tier.FREE }
      rfl rfl).1⟩

end StreamingApp

namespace StreamingApp

/-! ## More helper lemmas -/

lemma mem_updateUserTier_users (db : DB) (uid : String) (t : Tier) :
    ∀ u ∈ (updateUserTier db uid t).users, u.id = uid → u.subscriptionTier = t := by
  intro u hu hid
  rcases List.mem_map.mp hu with ⟨v, _, rfl⟩
  by_cases h : v.id = uid
  · simp [h]
  · simp [h] at hid

lemma mem_cancelMap (l : List Subscription) (eid : String) :
    ∀ r ∈ l.map (fun s =>
        if s.externalSubscriptionId == eid then { s with status := SubStatus.CANCELLED }
        else s),
      r.externalSubscriptionId = eid → r.status = SubStatus.CANCELLED := by
  intro r hr hre
  rcases List.mem_map.mp hr with ⟨v, _, rfl⟩
  by_cases h : v.externalSubscriptionId = eid
  · simp [h]
  · simp [h] at hre

/-! ## C5: replaying a subscription-deleted webhook -/

def c5sub : Subscription :=
  { id := "s1", userId := "u1", planId := "premium_monthly", status := .ACTIVE
    tier := .PREMIUM, platform := .STRIPE, externalSubscriptionId := "ext1"
    currentPeriodStart := 0, currentPeriodEnd := 1000, cancelAtPeriodEnd := false
    createdAt := 0, receipt := none }

def c5db : DB :=
  { users := [{ id := "u1", subscriptionTier := .PREMIUM }]
    subscriptions := [c5sub], orders := [], analytics := [] }

def c5payload : StripeSubPayload :=
  { id := "ext1", providerStatus := "canceled", current_period_start := 0
    current_period_end := 1000, cancel_at_period_end := false, metaUserId := none }

/-- C5 counterexample: a subscription-deleted event whose metadata carries no
userId is dropped by the guard, so even after two deliveries the matching
subscription is still ACTIVE and the owning user still PREMIUM — not the
claimed CANCELLED / FREE final state. -/
theorem handleSubscriptionDeleted_counterexample :
    (c5db.subscriptions.find?
        (fun s => s.externalSubscriptionId == c5payload.id)).isSome = true ∧
    handleSubscriptionDeleted (handleSubscriptionDeleted c5db c5payload) c5payload = c5db ∧
    c5db.subscriptions.map (fun s => s.status) = [SubStatus.ACTIVE] ∧
    c5db.users.map (fun u => u.subscriptionTier) = [Tier.PREMIUM] := by
  decide

/-- C5 amended: processing a subscription-deleted event is idempotent — a
second delivery reproduces exactly the state after the first, with no
further effect; and when the event's metadata does carry a userId, one
delivery leaves every subscription matching the event's external id
CANCELLED and that user's cached tier FREE.  Events without a metadata
userId are dropped unchanged (see the C10 guard). -/
theorem handleSubscriptionDeleted_idem_spec :
    (∀ db p, handleSubscriptionDeleted (handleSubscriptionDeleted db p) p
        = handleSubscriptionDeleted db p) ∧
    (∀ db p uid, p.metaUserId = some uid →
      (∀ r ∈ (handleSubscriptionDeleted db p).subscriptions,
          r.externalSubscriptionId = p.id → r.status = SubStatus.CANCELLED) ∧
      (∀ u ∈ (handleSubscriptionDeleted db p).users,
          u.id = uid → u.subscriptionTier = Tier.FREE)) := by
  constructor
  · intro db p
    cases hp : p.metaUserId with
    | none => simp [handleSubscriptionDeleted, hp]
    | some uid =>
      cases db with
      | mk us ss os asx =>
        have hf : ∀ s : Subscription,
            (if s.externalSubscriptionId == p.id
              then { s with status := SubStatus.CANCELLED } else s).externalSubscriptionId
              = s.externalSubscriptionId := by
          intro s
          by_cases h : s.externalSubscriptionId = p.id <;> simp [h]
        simp only [handleSubscriptionDeleted, hp, updateUserTier, DB.mk.injEq]
        refine ⟨?_, ?_, trivial, trivial⟩
        · rw [List.map_map]
          refine List.map_congr_left ?_
          intro u _
          by_cases h : u.id = uid <;> simp [h]
        · rw [List.map_map]
          refine List.map_congr_left ?_
          intro s _
          by_cases h : s.externalSubscriptionId = p.id <;> simp [h]
  · intro db p uid hp
    constructor
    · intro r hr hre
      have hr' : r ∈ (db.subscriptions.map (fun s =>
          if s.externalSubscriptionId == p.id then { s with status := SubStatus.CANCELLED }
          else s)) := by
        simpa [handleSubscriptionDeleted, hp, updateUserTier] using hr
      exact mem_cancelMap db.subscriptions p.id r hr' hre
    · intro u hu hid
      have hu' : u ∈ (updateUserTier
          { db with subscriptions := db.subscriptions.map (fun s =>
              if s.externalSubscriptionId == p.id then { s with status := SubStatus.CANCELLED }
              else s) } uid .FREE).users := by
        simpa [handleSubscriptionDeleted, hp] using hu
      exact mem_updateUserTier_users _ uid .FREE u hu' hid

def c5wsub : Subscription :=
  { id := "s2", userId := "u2", planId := "premium_monthly", status := .ACTIVE
    tier := .PREMIUM, platform := .STRIPE, externalSubscriptionId := "ext2"
    currentPeriodStart := 0, currentPeriodEnd := 1000, cancelAtPeriodEnd := false
    createdAt := 0, receipt := none }

def c5wdb : DB :=
  { users := [{ id := "u2", subscriptionTier := .PREMIUM }]
    subscriptions := [c5wsub], orders := [], analytics := [] }

def c5wpayload : StripeSubPayload :=
  { id := "ext2", providerStatus := "canceled", current_period_start := 0
    current_period_end := 1000, cancel_at_period_end := false, metaUserId := some "u2" }

theorem handleSubscriptionDeleted_idem_spec_witness :
    c5wpayload.metaUserId = some "u2" ∧
    handleSubscriptionDeleted (handleSubscriptionDeleted c5wdb c5wpayload) c5wpayload
      = handleSubscriptionDeleted c5wdb c5wpayload ∧
    (handleSubscriptionDeleted c5wdb c5wpayload).subscriptions.map (fun s => s.status)
      = [SubStatus.CANCELLED] ∧
    (handleSubscriptionDeleted c5wdb c5wpayload).users.map (fun u => u.subscriptionTier)
      = [Tier.FREE] :=
  ⟨rfl, handleSubscriptionDeleted_idem_spec.1 c5wdb c5wpayload, by decide, by decide⟩

end StreamingApp

namespace StreamingApp

/-! ## C4: the subscription-updated webhook status mapping -/

def c4sub : Subscription :=
  { id := "s1", userId := "u1", planId := "premium_monthly", status := .ACTIVE
    tier := .PREMIUM, platform := .STRIPE, externalSubscriptionId := "ext1"
    currentPeriodStart := 0, currentPeriodEnd := 1000, cancelAtPeriodEnd := false
    createdAt := 0, receipt := none }

def c4db : DB :=
  { users := [{ id := "u1", subscriptionTier := .PREMIUM }]
    subscriptions := [c4sub], orders := [], analytics := [] }

def c4payload : StripeSubPayload :=
  { id := "ext1", providerStatus := "canceled", current_period_start := 100
    current_period_end := 200, cancel_at_period_end := true, metaUserId := none }

/-- C4 counterexample: a subscription-updated event with provider status
"canceled" that matches a local record by external id, but whose metadata
carries no userId, is dropped before any write — the record stays ACTIVE
instead of moving to CANCELLED as the claim requires for every matching
event. -/
theorem handleSubscriptionUpdated_counterexample :
    (c4db.subscriptions.find?
        (fun s => s.externalSubscriptionId == c4payload.id)).isSome = true ∧
    c4payload.providerStatus = "canceled" ∧
    handleSubscriptionUpdated c4db c4payload = c4db ∧
    c4db.subscriptions.map (fun s => s.status) = [SubStatus.ACTIVE] := by
  decide

/-- C4 amended: for every subscription-updated event whose metadata carries a
userId and which matches a local record by externalSubscriptionId, the
reconciler rewrites the matched record with the mapped status — active →
ACTIVE, canceled → CANCELLED, past_due → PAST_DUE, anything else → INACTIVE
— refreshing currentPeriodStart/End and cancelAtPeriodEnd in every case,
and touches the user's cached tier only as: ACTIVE → the record's tier,
CANCELLED → FREE, PAST_DUE/INACTIVE → users untouched.  Events with no
matching record — or with no metadata userId — cause no state mutation. -/
theorem handleSubscriptionUpdated_spec :
    (mapProviderStatus "active" = SubStatus.ACTIVE ∧
     mapProviderStatus "canceled" = SubStatus.CANCELLED ∧
     mapProviderStatus "past_due" = SubStatus.PAST_DUE) ∧
    (∀ st, st ≠ "active" → st ≠ "canceled" → st ≠ "past_due" →
        mapProviderStatus st = SubStatus.INACTIVE) ∧
    (∀ db p, db.subscriptions.find? (fun s => s.externalSubscriptionId == p.id) = none →
        handleSubscriptionUpdated db p = db) ∧
    (∀ db p uid dbSub, p.metaUserId = some uid →
      db.subscriptions.find? (fun s => s.externalSubscriptionId == p.id) = some dbSub →
        (handleSubscriptionUpdated db p).subscriptions
          = db.subscriptions.map (fun s =>
              if s.id == dbSub.id then
                { s with status := mapProviderStatus p.providerStatus
                         currentPeriodStart := p.current_period_start
                         currentPeriodEnd := p.current_period_end
                         cancelAtPeriodEnd := p.cancel_at_period_end }
              else s) ∧
        (mapProviderStatus p.providerStatus = SubStatus.ACTIVE →
          ∀ u ∈ (handleSubscriptionUpdated db p).users, u.id = uid →
            u.subscriptionTier = dbSub.tier) ∧
        (mapProviderStatus p.providerStatus = SubStatus.CANCELLED →
          ∀ u ∈ (handleSubscriptionUpdated db p).users, u.id = uid →
            u.subscriptionTier = Tier.FREE) ∧
        ((mapProviderStatus p.providerStatus = SubStatus.PAST_DUE ∨
          mapProviderStatus p.providerStatus = SubStatus.INACTIVE) →
          (handleSubscriptionUpdated db p).users = db.users)) := by
  refine ⟨⟨rfl, rfl, rfl⟩, ?_, ?_, ?_⟩
  · intro st h1 h2 h3
    simp [mapProviderStatus, h1, h2, h3]
  · intro db p hnone
    cases hp : p.metaUserId with
    | none => simp [handleSubscriptionUpdated, hp]
    | some uid => simp [handleSubscriptionUpdated, hp, hnone]
  · intro db p uid dbSub hp hfind
    simp only [handleSubscriptionUpdated, hp, hfind]
    generalize mapProviderStatus p.providerStatus = st
    cases st with
    | ACTIVE =>
      refine ⟨rfl, ?_, ?_, ?_⟩
      · intro _ u hu hid
        exact mem_updateUserTier_users _ uid dbSub.tier u hu hid
      · intro h
        cases h
      · rintro (h | h) <;> cases h
    | INACTIVE =>
      refine ⟨rfl, ?_, ?_, ?_⟩
      · intro h
        cases h
      · intro h
        cases h
      · intro _
        rfl
    | CANCELLED =>
      refine ⟨rfl, ?_, ?_, ?_⟩
      · intro h
        cases h
      · intro _ u hu hid
        exact mem_updateUserTier_users _ uid .FREE u hu hid
      · rintro (h | h) <;> cases h
    | EXPIRED =>
      refine ⟨rfl, ?_, ?_, ?_⟩
      · intro h
        cases h
      · intro h
        cases h
      · rintro (h | h) <;> cases h
    | PAST_DUE =>
      refine ⟨rfl, ?_, ?_, ?_⟩
      · intro h
        cases h
      · intro h
        cases h
      · intro _
        rfl

end StreamingApp

namespace StreamingApp

def c4wsub : Subscription :=
  { id := "s3", userId := "u1", planId := "premium_monthly", status := .ACTIVE
    tier := .PREMIUM, platform := .STRIPE, externalSubscriptionId := "ext3"
    currentPeriodStart := 0, currentPeriodEnd := 1000, cancelAtPeriodEnd := false
    createdAt := 0, receipt := none }

def c4wdb : DB :=
  { users := [{ id := "u1", subscriptionTier := .PREMIUM }]
    subscriptions := [c4wsub], orders := [], analytics := [] }

def c4wpayload : StripeSubPayload :=
  { id := "ext3", providerStatus := "canceled", current_period_start := 100
    current_period_end := 200, cancel_at_period_end := true, metaUserId := some "u1" }

theorem handleSubscriptionUpdated_spec_witness :
    c4wpayload.metaUserId = some "u1" ∧
    c4wdb.subscriptions.find? (fun s => s.externalSubscriptionId == c4wpayload.id)
      = some c4wsub ∧
    (handleSubscriptionUpdated c4wdb c4wpayload).subscriptions
      = c4wdb.subscriptions.map (fun s =>
          if s.id == c4wsub.id then
            { s with status := mapProviderStatus c4wpayload.providerStatus
                     currentPeriodStart := c4wpayload.current_period_start
                     currentPeriodEnd := c4wpayload.current_period_end
                     cancelAtPeriodEnd := c4wpayload.cancel_at_period_end }
          else s) :=
  ⟨rfl, by decide,
    (handleSubscriptionUpdated_spec.2.2.2 c4wdb c4wpayload "u1" c4wsub rfl (by decide)).1⟩

/-! ## C1: access checks against an expired subscription -/

lemma user_tier_eta (u : User) (h : u.subscriptionTier = Tier.FREE) :
    ({ u with subscriptionTier := Tier.FREE } : User) = u := by
  cases u
  simp_all

def c1sub : Subscription :=
  { id := "s1", userId := "u1", planId := "premium_monthly", status := .ACTIVE
    tier := .PREMIUM, platform := .STRIPE, externalSubscriptionId := "ext1"
    currentPeriodStart := 0, currentPeriodEnd := 5, cancelAtPeriodEnd := false
    createdAt := 0, receipt := none }

def c1db : DB :=
  { users := [{ id := "u1", subscriptionTier := .PREMIUM }]
    subscriptions := [c1sub], orders := [], analytics := [] }

/-- C1 counterexample: at time 10 the only subscription (period end 5,
status ACTIVE) is expired; GET /subscriptions/check-access does report
FREE-equivalent access, but it never writes the subscription row, so a
subsequent read still observes status ACTIVE — not EXPIRED as claimed. -/
theorem checkAccess_expired_counterexample :
    c1sub.currentPeriodEnd < 10 ∧
    (checkAccess 10 c1db "u1").1 = CheckAccessResp.ok freeAccessLevel ∧
    (checkAccess 10 c1db "u1").2.subscriptions.map (fun s => s.status)
      = [SubStatus.ACTIVE] := by
  decide

/-- C1 amended: when the latest ACTIVE/PAST_DUE subscription of a user is
past its period end, (i) GET /subscriptions/check-access reports the
FREE-equivalent access level regardless of the stored tier and resets the
user's cached tier to FREE, but leaves every subscription row — in
particular its status — unchanged; (ii) it is GET /subscriptions that
performs the lazy transition, writing the row to EXPIRED (only when its
status is ACTIVE) and the cached tier to FREE; (iii) running check-access
twice yields exactly the same response and state as running it once. -/
theorem checkAccess_expired_spec :
    (∀ (now : Int) (db : DB) (uid : String) (u : User) (s : Subscription),
      findUser db uid = some u → latestActiveSub db uid = some s →
      s.currentPeriodEnd < now →
        (checkAccess now db uid).1 = CheckAccessResp.ok freeAccessLevel ∧
        (checkAccess now db uid).2.subscriptions = db.subscriptions ∧
        findUser (checkAccess now db uid).2 uid
          = some { u with subscriptionTier := Tier.FREE }) ∧
    (∀ (now : Int) (db : DB) (uid : String) (u : User) (s : Subscription),
      findUser db uid = some u → latestActiveSub db uid = some s →
      s.currentPeriodEnd < now → s.status = SubStatus.ACTIVE →
        (∀ r ∈ (getCurrentSubscription now db uid).2.subscriptions,
            r.id = s.id → r.status = SubStatus.EXPIRED) ∧
        findUser (getCurrentSubscription now db uid).2 uid
          = some { u with subscriptionTier := Tier.FREE }) ∧
    (∀ (now : Int) (db : DB) (uid : String),
      checkAccess now (checkAccess now db uid).2 uid = checkAccess now db uid) := by
  refine ⟨?_, ?_, ?_⟩
  · intro now db uid u s hu hs hlt
    have hres : checkAccess now db uid =
        (CheckAccessResp.ok freeAccessLevel,
          if u.subscriptionTier != Tier.FREE then updateUserTier db uid Tier.FREE else db) := by
      simp [checkAccess, hu, hs, hlt]
    refine ⟨by rw [hres], ?_, ?_⟩
    · rw [hres]
      dsimp only
      split <;> rfl
    · rw [hres]
      dsimp only
      by_cases hf : u.subscriptionTier = Tier.FREE
      · have hc : (u.subscriptionTier != Tier.FREE) = false := by simp [hf]
        rw [hc]
        simp only [Bool.false_eq_true, if_false]
        rw [user_tier_eta u hf]
        exact hu
      · have hc : (u.subscriptionTier != Tier.FREE) = true := by simp [hf]
        rw [hc]
        simp only [if_true]
        rw [findUser_updateUserTier, hu]
        rfl
  · intro now db uid u s hu hs hlt hact
    have hres : getCurrentSubscription now db uid
        = (GetSubResp.ok s (decide (s.currentPeriodEnd < now)),
           updateUserTier (updateSubStatus db s.id .EXPIRED) uid .FREE) := by
      simp [getCurrentSubscription, hs, hlt, hact]
    refine ⟨?_, ?_⟩
    · intro r hr hrid
      rw [hres] at hr
      have hr' : r ∈ db.subscriptions.map
          (fun v => if v.id == s.id then { v with status := SubStatus.EXPIRED } else v) := hr
      rcases List.mem_map.mp hr' with ⟨v, _, rfl⟩
      by_cases h : v.id = s.id
      · simp [h]
      · simp [h] at hrid
    · rw [hres]
      show findUser (updateUserTier (updateSubStatus db s.id .EXPIRED) uid .FREE) uid = _
      rw [findUser_updateUserTier]
      have hsame : findUser (updateSubStatus db s.id .EXPIRED) uid = findUser db uid := rfl
      rw [hsame, hu]
      rfl
  · intro now db uid
    cases hu : findUser db uid with
    | none => simp [checkAccess, hu]
    | some u =>
      cases hs : latestActiveSub db uid with
      | none => simp [checkAccess, hu, hs]
      | some s =>
        by_cases hlt : s.currentPeriodEnd < now
        · by_cases hf : u.subscriptionTier = Tier.FREE
          · have hc : (u.subscriptionTier != Tier.FREE) = false := by simp [hf]
            simp [checkAccess, hu, hs, hlt, hc]
          · have hc : (u.subscriptionTier != Tier.FREE) = true := by simp [hf]
            have h1 : findUser (updateUserTier db uid Tier.FREE) uid
                = some { u with subscriptionTier := Tier.FREE } := by
              rw [findUser_updateUserTier, hu]
              rfl
            have h2 : latestActiveSub (updateUserTier db uid Tier.FREE) uid
                = latestActiveSub db uid := rfl
            simp [checkAccess, hu, hs, hlt, hc, h1, h2]
        · simp [checkAccess, hu, hs, hlt]

def c1wuser : User := { id := "u1", subscriptionTier := .PREMIUM }

def c1wsub : Subscription :=
  { id := "s1", userId := "u1", planId := "premium_monthly", status := .ACTIVE
    tier := .PREMIUM, platform := .STRIPE, externalSubscriptionId := "ext1"
    currentPeriodStart := 0, currentPeriodEnd := 5, cancelAtPeriodEnd := false
    createdAt := 0, receipt := none }

def c1wdb : DB :=
  { users := [c1wuser], subscriptions := [c1wsub], orders := [], analytics := [] }

theorem checkAccess_expired_spec_witness :
    findUser c1wdb "u1" = some c1wuser ∧
    latestActiveSub c1wdb "u1" = some c1wsub ∧
    c1wsub.currentPeriodEnd < 10 ∧ c1wsub.status = SubStatus.ACTIVE ∧
    (checkAccess 10 c1wdb "u1").1 = CheckAccessResp.ok freeAccessLevel ∧
    findUser (getCurrentSubscription 10 c1wdb "u1").2 "u1"
      = some { c1wuser with subscriptionTier := Tier.FREE } ∧
    checkAccess 10 (checkAccess 10 c1wdb "u1").2 "u1" = checkAccess 10 c1wdb "u1" := by
  refine ⟨rfl, by decide, by decide, rfl, ?_, ?_, ?_⟩
  · exact (checkAccess_expired_spec.1 10 c1wdb "u1" c1wuser c1wsub rfl (by decide) (by decide)).1
  · exact (checkAccess_expired_spec.2.1 10 c1wdb "u1" c1wuser c1wsub rfl (by decide)
      (by decide) rfl).2
  · exact checkAccess_expired_spec.2.2 10 c1wdb "u1"

end StreamingApp

namespace StreamingApp

/-! ## C8: the periodic expiry sweep -/

lemma foldl_expire_subscriptions (L : List Subscription) (db : DB) :
    (L.foldl (fun d s => expireSubscription d s.id s.userId) db).subscriptions
      = db.subscriptions.map (fun s =>
          if L.any (fun y => s.id == y.id) then { s with status := SubStatus.EXPIRED }
          else s) := by
  induction L generalizing db with
  | nil => simp
  | cons x L ih =>
    rw [List.foldl_cons, ih]
    have h1 : (expireSubscription db x.id x.userId).subscriptions
        = db.subscriptions.map
            (fun s => if s.id == x.id then { s with status := SubStatus.EXPIRED } else s) :=
      rfl
    rw [h1, List.map_map]
    refine List.map_congr_left ?_
    intro s _
    by_cases h : s.id = x.id
    · simp [h]
    · simp [h, List.any_cons]

lemma foldl_expire_users (L : List Subscription) (db : DB) :
    (L.foldl (fun d s => expireSubscription d s.id s.userId) db).users
      = db.users.map (fun u =>
          if L.any (fun y => u.id == y.userId) then { u with subscriptionTier := Tier.FREE }
          else u) := by
  induction L generalizing db with
  | nil => simp
  | cons x L ih =>
    rw [List.foldl_cons, ih]
    have h1 : (expireSubscription db x.id x.userId).users
        = db.users.map
            (fun u => if u.id == x.userId then { u with subscriptionTier := Tier.FREE }
              else u) :=
      rfl
    rw [h1, List.map_map]
    refine List.map_congr_left ?_
    intro u _
    by_cases h : u.id = x.userId
    · simp [h]
    · simp [h, List.any_cons]

lemma foldl_expire_orders (L : List Subscription) (db : DB) :
    (L.foldl (fun d s => expireSubscription d s.id s.userId) db).orders = db.orders := by
  induction L generalizing db with
  | nil => rfl
  | cons x L ih =>
    rw [List.foldl_cons]
    exact ih _

lemma foldl_expire_analytics (L : List Subscription) (db : DB) :
    (L.foldl (fun d s => expireSubscription d s.id s.userId) db).analytics = db.analytics := by
  induction L generalizing db with
  | nil => rfl
  | cons x L ih =>
    rw [List.foldl_cons]
    exact ih _

/-- C8: assuming distinct subscription row ids (the table's primary key),
the sweep turns exactly the ACTIVE/PAST_DUE rows whose period end is in the
past to EXPIRED, leaves every other subscription row unchanged, returns the
number of rows so transitioned, sets the cached tier of every owner of such
a row to FREE (other users untouched), and does not touch orders or
analytics. -/
theorem syncSubscriptionStatus_spec (now : Int) (db : DB)
    (hids : (db.subscriptions.map (fun s => s.id)).Nodup) :
    (syncSubscriptionStatus now db).1 = (db.subscriptions.filter (isDue now)).length ∧
    (syncSubscriptionStatus now db).2.subscriptions
      = db.subscriptions.map (fun s =>
          if isDue now s then { s with status := SubStatus.EXPIRED } else s) ∧
    (syncSubscriptionStatus now db).2.users
      = db.users.map (fun u =>
          if (db.subscriptions.filter (isDue now)).any (fun y => u.id == y.userId)
          then { u with subscriptionTier := Tier.FREE } else u) ∧
    (syncSubscriptionStatus now db).2.orders = db.orders ∧
    (syncSubscriptionStatus now db).2.analytics = db.analytics := by
  refine ⟨rfl, ?_, ?_, ?_, ?_⟩
  · show ((db.subscriptions.filter (isDue now)).foldl
        (fun d s => expireSubscription d s.id s.userId) db).subscriptions = _
    rw [foldl_expire_subscriptions]
    refine List.map_congr_left ?_
    intro s hs
    by_cases hd : isDue now s = true
    · have hany : (db.subscriptions.filter (isDue now)).any (fun y => s.id == y.id) = true := by
        refine List.any_eq_true.mpr ⟨s, ?_, by simp⟩
        exact List.mem_filter.mpr ⟨hs, hd⟩
      rw [hany, hd]
    · have hany : (db.subscriptions.filter (isDue now)).any (fun y => s.id == y.id)
          = false := by
        rw [Bool.eq_false_iff]
        intro htrue
        rcases List.any_eq_true.mp htrue with ⟨y, hy, hyeq⟩
        have hy' := List.mem_filter.mp hy
        have hyid : s.id = y.id := by simpa using hyeq
        have : y = s := List.inj_on_of_nodup_map hids hy'.1 hs hyid.symm
        rw [this] at hy'
        exact hd hy'.2
      rw [hany]
      simp [hd]
  · show ((db.subscriptions.filter (isDue now)).foldl
        (fun d s => expireSubscription d s.id s.userId) db).users = _
    rw [foldl_expire_users]
  · exact foldl_expire_orders _ _
  · exact foldl_expire_analytics _ _

def c8dueSub : Subscription :=
  { id := "s1", userId := "u1", planId := "premium_monthly", status := .ACTIVE
    tier := .PREMIUM, platform := .STRIPE, externalSubscriptionId := "ext1"
    currentPeriodStart := 0, currentPeriodEnd := 5, cancelAtPeriodEnd := false
    createdAt := 0, receipt := none }

def c8freshSub : Subscription :=
  { id := "s2", userId := "u2", planId := "standard_monthly", status := .ACTIVE
    tier := .STANDARD, platform := .STRIPE, externalSubscriptionId := "ext2"
    currentPeriodStart := 0, currentPeriodEnd := 100, cancelAtPeriodEnd := false
    createdAt := 0, receipt := none }

def c8db : DB :=
  { users := [{ id := "u1", subscriptionTier := .PREMIUM }
              , { id := "u2", subscriptionTier := .STANDARD }]
    subscriptions := [c8dueSub, c8freshSub], orders := [], analytics := [] }

theorem syncSubscriptionStatus_spec_witness :
    (c8db.subscriptions.map (fun s => s.id)).Nodup ∧
    (syncSubscriptionStatus 10 c8db).1 = 1 ∧
    (syncSubscriptionStatus 10 c8db).2.subscriptions
      = c8db.subscriptions.map (fun s =>
          if isDue 10 s then { s with status := SubStatus.EXPIRED } else s) ∧
    (syncSubscriptionStatus 10 c8db).2.users
      = c8db.users.map (fun u =>
          if (c8db.subscriptions.filter (isDue 10)).any (fun y => u.id == y.userId)
          then { u with subscriptionTier := Tier.FREE } else u) := by
  have hn : (c8db.subscriptions.map (fun s => s.id)).Nodup := by decide
  have H := syncSubscriptionStatus_spec 10 c8db hn
  refine ⟨hn, ?_, H.2.1, H.2.2.1⟩
  rw [H.1]
  decide

end StreamingApp
